import Mathlib

/-!
Shallow embedding of the location-based-services application's algorithmic
core: the four spatial query views of `src/geo/views.py` and the GeoJSON
route-ingestion command of `src/geo/management/commands/import_routes.py`,
over the data model of `src/geo/models.py`.

Numbers: every longitude/latitude and every numeric query parameter is
modelled exactly as an integer in units of one hundredth of a degree
(respectively, as the integer value of the parameter), which represents
every coordinate and every numeric parameter appearing in the repository's
data and tests exactly; distances are integers in meters.  The geometric
predicates (point-in-polygon, polyline-intersects-polygon) and the geodesic
distance are delegated by the source to the spatial database (PostGIS
lookups `location__within`, `path__intersects`, `distance_lte` and the
`Distance` annotation), whose code is not part of the repository; the
predicates are modelled from the spec's section 4.1 and the distance is
kept as an explicit function parameter.
-/

instance {ε α : Type} [DecidableEq ε] [DecidableEq α] : DecidableEq (Except ε α) := fun x y =>
  match x, y with
  | Except.error e, Except.error f =>
      if h : e = f then Decidable.isTrue (by rw [h]) else Decidable.isFalse (by simp [h])
  | Except.error _, Except.ok _ => Decidable.isFalse (by simp)
  | Except.ok _, Except.error _ => Decidable.isFalse (by simp)
  | Except.ok a, Except.ok b =>
      if h : a = b then Decidable.isTrue (by rw [h]) else Decidable.isFalse (by simp [h])

/-- A geographic point: longitude and latitude in hundredths of a degree
(WGS84). -/
structure Pt where
  lng : ℤ
  lat : ℤ
deriving DecidableEq

/-- Consecutive vertex pairs of a vertex list: the edges of a closed ring
(whose first vertex equals its last) or the segments of a polyline. -/
def ringEdges (ps : List Pt) : List (Pt × Pt) :=
  ps.zip ps.tail

/-- Modelled from the spec: `pointInPolygon` (spec 4.1).  The source
delegates this predicate to the spatial database (`location__within` in
`src/geo/views.py`), whose code is not in the repository; the spec
prescribes a ray-casting (or winding-number) test over the closed ring.
This is the standard even-odd ray cast, toggling on each edge whose latitude
span straddles the point and whose crossing with the point's horizontal line
lies to the point's right; the crossing comparison
`p.lng < a.lng + (b.lng - a.lng) * (p.lat - a.lat) / (b.lat - a.lat)` is
written division-free by cross-multiplying with the (nonzero, under the
straddle condition) denominator `b.lat - a.lat`, flipping the inequality
when it is negative. -/
def pointInPolygon (p : Pt) (ring : List Pt) : Bool :=
  (ringEdges ring).foldl
    (fun inside e =>
      let a := e.1
      let b := e.2
      let d := b.lat - a.lat
      if ((a.lat ≤ p.lat ∧ p.lat < b.lat) ∨ (b.lat ≤ p.lat ∧ p.lat < a.lat)) ∧
          (if 0 < d then (p.lng - a.lng) * d < (b.lng - a.lng) * (p.lat - a.lat)
           else (b.lng - a.lng) * (p.lat - a.lat) < (p.lng - a.lng) * d)
      then !inside else inside)
    false

/-- Orientation (doubled signed area) of the triangle `a b c`. -/
def orient2d (a b c : Pt) : ℤ :=
  (b.lng - a.lng) * (c.lat - a.lat) - (b.lat - a.lat) * (c.lng - a.lng)

/-- Whether `p`, known to be collinear with segment `a b`, lies on it. -/
def onSegment (a b p : Pt) : Bool :=
  min a.lng b.lng ≤ p.lng ∧ p.lng ≤ max a.lng b.lng ∧
    min a.lat b.lat ≤ p.lat ∧ p.lat ≤ max a.lat b.lat

/-- Modelled from the spec: `segmentsIntersect` (spec 4.1), the standard 2D
segment intersection test by orientations, degrees treated as a flat local
coordinate system. -/
def segmentsIntersect (p1 p2 q1 q2 : Pt) : Bool :=
  let d1 := orient2d q1 q2 p1
  let d2 := orient2d q1 q2 p2
  let d3 := orient2d p1 p2 q1
  let d4 := orient2d p1 p2 q2
  if ((0 < d1 ∧ d2 < 0) ∨ (d1 < 0 ∧ 0 < d2)) ∧
      ((0 < d3 ∧ d4 < 0) ∨ (d3 < 0 ∧ 0 < d4)) then true
  else if d1 = 0 ∧ onSegment q1 q2 p1 then true
  else if d2 = 0 ∧ onSegment q1 q2 p2 then true
  else if d3 = 0 ∧ onSegment p1 p2 q1 then true
  else if d4 = 0 ∧ onSegment p1 p2 q2 then true
  else false

/-- Modelled from the spec: `polylineIntersectsPolygon` (spec 4.1).  The
source delegates this to the database lookup `path__intersects`; per the
spec a polyline intersects a polygon when some segment of the polyline
crosses some edge of the ring, or some vertex of the polyline lies inside
it. -/
def polylineIntersectsPolygon (line ring : List Pt) : Bool :=
  (ringEdges line).any (fun s => (ringEdges ring).any
      (fun e => segmentsIntersect s.1 s.2 e.1 e.2))
    || line.any (fun v => pointInPolygon v ring)

/-- An amenity record (`src/geo/models.py` lines 19-33): a named point of
one of the fixed categories. -/
structure Amenity where
  name : String
  category : String
  location : Pt
  description : String
deriving DecidableEq

/-- An area record (`src/geo/models.py` lines 3-8): a uniquely named
polygon.  The primary key is kept as the string it is compared against when
a query parameter references the area. -/
structure Area where
  id : String
  name : String
  boundary : List Pt
deriving DecidableEq

/-- A route record (`src/geo/models.py` lines 11-16): a polyline keyed by
its unique name. -/
structure Route where
  name : String
  path : List Pt
deriving DecidableEq

/-- Outcome of Python's `float(request.query_params.get(...))` on one query
parameter: the parameter is absent (`float(None)` raises `TypeError`),
present but unparseable (`ValueError`), or parses to a number. -/
inductive FParse where
  | missing
  | malformed
  | value (q : ℤ)
deriving DecidableEq

/-- Outcome of Python's `int(...)` on a query parameter, as `FParse`. -/
inductive IParse where
  | missing
  | malformed
  | value (n : ℤ)
deriving DecidableEq

/-- The ordering the `order_by("distance")` annotation of
`NearestAmenities.get` imposes: non-decreasing database distance to the
origin.  The database's geodesic distance is the explicit parameter
`dist`. -/
def distLE (dist : Pt → Pt → ℤ) (origin : Pt) (a b : Amenity) : Prop :=
  dist origin a.location ≤ dist origin b.location

instance (dist : Pt → Pt → ℤ) (origin : Pt) : DecidableRel (distLE dist origin) :=
  fun a b => inferInstanceAs (Decidable (_ ≤ _))

/-- The queryset of `NearestAmenities.get` (`src/geo/views.py` line 51):
annotate each amenity with its distance to the origin, order ascending,
slice to `limit`.  The database sort is modelled by a stable insertion
sort. -/
def nearestCore (store : List Amenity) (dist : Pt → Pt → ℤ)
    (lat lng : ℤ) (limit : ℤ) : List Amenity :=
  (store.insertionSort (distLE dist ⟨lng, lat⟩)).take limit.toNat

/-- Shallow embedding of `NearestAmenities.get` (`src/geo/views.py` lines
34-53).  `lat` and `lng` must parse as floats; `limit` defaults to 10, must
parse as an integer and be positive, and is clamped by `min limit 100`.  The
`area_id` query parameter is accepted but — exactly as in the source — never
read. -/
def nearestAmenities (store : List Amenity) (dist : Pt → Pt → ℤ)
    (latP lngP : FParse) (limitP : IParse) (areaIdP : Option String) :
    Except String (List Amenity) :=
  match latP, lngP with
  | FParse.value lat, FParse.value lng =>
    match limitP with
    | IParse.malformed =>
        Except.error "Query param 'limit' must be a positive integer."
    | IParse.missing =>
        Except.ok (nearestCore store dist lat lng (min 10 100))
    | IParse.value n =>
        if n ≤ 0 then
          Except.error "Query param 'limit' must be greater than zero."
        else
          Except.ok (nearestCore store dist lat lng (min n 100))
  | _, _ => Except.error "Query params 'lat' and 'lng' are required floats."

/-- Lookup of `Area.objects.get(pk=area_id)` over the stored areas. -/
def findArea (areas : List Area) (aid : String) : Option Area :=
  areas.find? (fun a => a.id == aid)

/-- Shallow embedding of `AmenitiesWithinArea.get` (`src/geo/views.py` lines
55-67): require a non-falsy `area_id`, resolve it, and filter the amenities
by the within-boundary predicate (`location__within`, modelled by
`pointInPolygon`). -/
def amenitiesWithinArea (store : List Amenity) (areas : List Area)
    (areaIdP : Option String) : Except String (List Amenity) :=
  match areaIdP with
  | none => Except.error "Query param 'area_id' is required."
  | some aid =>
    if aid = "" then Except.error "Query param 'area_id' is required."
    else
      match findArea areas aid with
      | none => Except.error "Area not found."
      | some area =>
          Except.ok (store.filter (fun am => pointInPolygon am.location area.boundary))

/-- Shallow embedding of `RoutesIntersectingArea.get` (`src/geo/views.py`
lines 69-81): same `area_id` contract, filtering routes by the intersection
predicate (`path__intersects`, modelled by `polylineIntersectsPolygon`). -/
def routesIntersectingArea (store : List Route) (areas : List Area)
    (areaIdP : Option String) : Except String (List Route) :=
  match areaIdP with
  | none => Except.error "Query param 'area_id' is required."
  | some aid =>
    if aid = "" then Except.error "Query param 'area_id' is required."
    else
      match findArea areas aid with
      | none => Except.error "Area not found."
      | some area =>
          Except.ok (store.filter (fun r => polylineIntersectsPolygon r.path area.boundary))

/-- Shallow embedding of `AmenitiesWithinRadius.get` (`src/geo/views.py`
lines 83-95).  `lat` and `lng` are required floats, `km` defaults to 1.0 and
must parse as a float; there is no positivity check on `km` and the
`area_id` query parameter is — exactly as in the source — never read.  The
lookup `location__distance_lte=(origin, D(km=km))` keeps the amenities whose
database distance in meters is at most `km * 1000`. -/
def amenitiesWithinRadius (store : List Amenity) (dist : Pt → Pt → ℤ)
    (latP lngP kmP : FParse) (areaIdP : Option String) :
    Except String (List Amenity) :=
  match latP, lngP, kmP with
  | FParse.value lat, FParse.value lng, FParse.value km =>
      Except.ok (store.filter
        (fun am => dist ⟨lng, lat⟩ am.location ≤ km * 1000))
  | FParse.value lat, FParse.value lng, FParse.missing =>
      Except.ok (store.filter
        (fun am => dist ⟨lng, lat⟩ am.location ≤ 1 * 1000))
  | _, _, _ => Except.error "Params 'lat','lng','km' are required floats."

/-- Python's `str.title()` over a character list: the first character of each
alphabetic run is uppercased, the rest lowercased; the Boolean argument is
whether the previous character was alphabetic. -/
def pyTitleAux : Bool → List Char → List Char
  | _, [] => []
  | prevAlpha, c :: rest =>
      (if c.isAlpha then (if prevAlpha then c.toLower else c.toUpper) else c)
        :: pyTitleAux c.isAlpha rest

/-- Python's `str.title()`. -/
def pyTitle (s : String) : String :=
  ⟨pyTitleAux false s.data⟩

/-- Python's falsy-based `a or b` on an optional string: `b` when `a` is
absent or empty. -/
def pyOr (a : Option String) (b : String) : String :=
  match a with
  | some s => if s = "" then b else s
  | none => b

/-- The generated default route name of `import_routes.py` line 121:
`f"{geojson_path.stem.replace('_', ' ').title()} Feature {index}"`. -/
def defaultName (stem : String) (idx : Nat) : String :=
  pyTitle (stem.replace "_" " ") ++ " Feature " ++ toString idx

/-- A GeoJSON geometry as the ingestion command consumes it
(`import_routes.py` lines 125-146): a `LineString` with its coordinate
array, a `MultiLineString` with its member arrays, or any other geometry
type (whose `hasCoords` records whether its `coordinates` entry is
non-falsy, since the coordinates check at line 127 runs before the type
dispatch).  Coordinates are raw number arrays: arity is checked only when a
`LineString` is constructed. -/
inductive Geom where
  | lineString (coords : List (List ℤ))
  | multiLineString (coords : List (List (List ℤ)))
  | unsupported (geomType : String) (hasCoords : Bool)
deriving DecidableEq

/-- A GeoJSON feature as the command consumes it: an optional (possibly
falsy) geometry and the `Name`/`name` properties used for base-name
resolution (`import_routes.py` lines 109-129). -/
structure Feature where
  geometry : Option Geom
  propName : Option String
  propNameLower : Option String
deriving DecidableEq

/-- Base name resolution (`import_routes.py` lines 118-122):
`properties.get("Name") or properties.get("name") or` the generated
default, with Python's falsy `or`. -/
def baseName (stem : String) (idx : Nat) (f : Feature) : String :=
  pyOr f.propName (pyOr f.propNameLower (defaultName stem idx))

/-- A raw coordinate is structurally valid when it is a
`[longitude, latitude]` pair; otherwise the `LineString` constructor raises
`TypeError` (`import_routes.py` lines 159-165). -/
def mkPoint : List ℤ → Option Pt
  | [x, y] => some ⟨x, y⟩
  | _ => none

/-- `LineString(segment, srid=4326)`: all coordinates must be valid pairs. -/
def mkLineString (seg : List (List ℤ)) : Option (List Pt) :=
  seg.mapM mkPoint

/-- The running state of one invocation of the import command: the Route
table plus the `imported` and `skipped` counters (`import_routes.py` lines
93-94). -/
structure ImportState where
  store : List Route
  imported : Nat
  skipped : Nat
deriving DecidableEq

/-- `Route.objects.update_or_create(name=name, defaults={"path": line})`
(`import_routes.py` lines 175-178): replace the path of the route with this
name if one exists, else append a new route. -/
def upsertRoute (store : List Route) (name : String) (path : List Pt) : List Route :=
  if store.any (fun r => r.name == name) then
    store.map (fun r => if r.name == name then { r with path := path } else r)
  else
    store ++ [{ name := name, path := path }]

/-- The final route name (`import_routes.py` lines 167-171): the base name,
suffixed with the 1-indexed segment number when the feature produced more
than one segment. -/
def segmentName (base : String) (multi : Bool) (i : Nat) : String :=
  if multi then base ++ " (Segment " ++ toString i ++ ")" else base

/-- The per-segment loop of `import_routes.py` lines 153-181 over the
already 1-indexed segments: segments with fewer than 2 coordinate pairs
increment the skip counter; structurally invalid coordinates abort the run
with a fatal error; valid segments are upserted under their final name and
increment the imported counter. -/
def processSegments (fileName : String) (featIdx : Nat) (base : String) (multi : Bool) :
    List (Nat × List (List ℤ)) → ImportState → Except String ImportState
  | [], st => Except.ok st
  | (segIdx, seg) :: rest, st =>
    if seg.length < 2 then
      processSegments fileName featIdx base multi rest { st with skipped := st.skipped + 1 }
    else
      match mkLineString seg with
      | none =>
          Except.error (fileName ++ " feature " ++ toString featIdx ++ " segment "
            ++ toString segIdx ++ ": invalid coordinates")
      | some line =>
          processSegments fileName featIdx base multi rest
            { st with
                store := upsertRoute st.store (segmentName base multi segIdx) line
                imported := st.imported + 1 }

/-- Processing of one feature (`import_routes.py` lines 109-181): skip when
the geometry or its coordinates are falsy; normalize a `LineString` to one
segment and a `MultiLineString` to its member arrays with at least 2
coordinate pairs; skip (with a warning) unsupported geometry types and
features left with no segments; then run the per-segment loop. -/
def processFeature (fileName stem : String) (idx : Nat) (f : Feature)
    (st : ImportState) : Except String ImportState :=
  match f.geometry with
  | none => Except.ok { st with skipped := st.skipped + 1 }
  | some g =>
    let base := baseName stem idx f
    match g with
    | Geom.lineString cs =>
        if cs.isEmpty then Except.ok { st with skipped := st.skipped + 1 }
        else
          let segments := [cs]
          if segments.isEmpty then Except.ok { st with skipped := st.skipped + 1 }
          else processSegments fileName idx base (decide (1 < segments.length))
            (segments.enumFrom 1) st
    | Geom.multiLineString cs =>
        if cs.isEmpty then Except.ok { st with skipped := st.skipped + 1 }
        else
          let segments := cs.filter (fun c => 2 ≤ c.length)
          if segments.isEmpty then Except.ok { st with skipped := st.skipped + 1 }
          else processSegments fileName idx base (decide (1 < segments.length))
            (segments.enumFrom 1) st
    | Geom.unsupported _ _ => Except.ok { st with skipped := st.skipped + 1 }

/-- The feature loop of one file (`import_routes.py` line 109), features
1-indexed in file order; a fatal error aborts the remaining features. -/
def processFeatures (fileName stem : String) :
    Nat → List Feature → ImportState → Except String ImportState
  | _, [], st => Except.ok st
  | idx, f :: rest, st =>
    match processFeature fileName stem idx f st with
    | Except.error e => Except.error e
    | Except.ok st2 => processFeatures fileName stem (idx + 1) rest st2

/-- Processing of one file (`import_routes.py` lines 97-181): an empty
features array only records a warning. -/
def importFile (fileName stem : String) (features : List Feature)
    (st : ImportState) : Except String ImportState :=
  if features.isEmpty then Except.ok st
  else processFeatures fileName stem 1 features st

/-- One invocation of the import command on a single file over an existing
Route table (`import_routes.py` lines 93-192, path resolution and the
`--reset` option aside): fresh counters, the file's features processed in
order, and a fatal `"No routes were imported."` error when the run imported
nothing. -/
def runImport (fileName stem : String) (features : List Feature)
    (store : List Route) : Except String ImportState :=
  match importFile fileName stem features { store := store, imported := 0, skipped := 0 } with
  | Except.error e => Except.error e
  | Except.ok st =>
      if st.imported = 0 then Except.error "No routes were imported."
      else Except.ok st

/-- The names under which the Route table's records are stored. -/
def routeNames (store : List Route) : List String :=
  store.map Route.name

/-- The set of route names in the table (the upsert identity, unique by the
`unique=True` constraint of `src/geo/models.py` line 12). -/
def keySet (store : List Route) : Finset String :=
  (routeNames store).toFinset

/-- The final names of the segments a segment list will upsert (those with
at least 2 coordinate pairs). -/
def segmentNames (base : String) (multi : Bool)
    (segs : List (Nat × List (List ℤ))) : List String :=
  (segs.filter (fun p => 2 ≤ p.2.length)).map (fun p => segmentName base multi p.1)

/-- The normalized segment sequence of a geometry (`import_routes.py` lines
127-150): `none` when the feature is skipped before the per-segment loop
(falsy coordinates, unsupported type, or no member with 2 coordinate
pairs). -/
def normalizedSegments : Geom → Option (List (List (List ℤ)))
  | Geom.lineString cs =>
      if cs.isEmpty then none
      else if ([cs] : List (List (List ℤ))).isEmpty then none else some [cs]
  | Geom.multiLineString cs =>
      if cs.isEmpty then none
      else
        let segs := cs.filter (fun c => 2 ≤ c.length)
        if segs.isEmpty then none else some segs
  | Geom.unsupported _ _ => none

/-- The names one feature will upsert. -/
def featureNames (stem : String) (idx : Nat) (f : Feature) : List String :=
  match f.geometry with
  | none => []
  | some g =>
    match normalizedSegments g with
    | none => []
    | some segments =>
        segmentNames (baseName stem idx f) (decide (1 < segments.length))
          (segments.enumFrom 1)

/-- The names a whole run over a feature list will upsert. -/
def runNames (stem : String) : Nat → List Feature → List String
  | _, [] => []
  | idx, f :: rest => featureNames stem idx f ++ runNames stem (idx + 1) rest

/-! Fixtures: the test configuration of `src/geo/tests.py` lines 9-46
(coordinates in hundredths of a degree). -/

/-- The Test Area boundary of `src/geo/tests.py` lines 13-19. -/
def dublinRing : List Pt :=
  [⟨-628, 5333⟩, ⟨-620, 5333⟩, ⟨-620, 5337⟩, ⟨-628, 5337⟩, ⟨-628, 5333⟩]

/-- The Test Area of `src/geo/tests.py` lines 11-20, with primary key "1". -/
def testArea : Area :=
  ⟨"1", "Test Area", dublinRing⟩

/-- Amenity "Brew Lab" of `src/geo/tests.py` lines 29-34 (inside the area). -/
def brewLab : Amenity :=
  ⟨"Brew Lab", "cafe", ⟨-626, 5335⟩, "Coffee spot"⟩

/-- Amenity "Lift Hub" of `src/geo/tests.py` lines 35-40 (inside the area). -/
def liftHub : Amenity :=
  ⟨"Lift Hub", "gym", ⟨-625, 5334⟩, "Fitness center"⟩

/-- Amenity "Far Cafe" of `src/geo/tests.py` lines 41-46 (outside the area). -/
def farCafe : Amenity :=
  ⟨"Far Cafe", "cafe", ⟨-624, 5338⟩, "Outside area"⟩

/-- The three stored amenities of the test configuration. -/
def fixtureAms : List Amenity :=
  [brewLab, liftHub, farCafe]

/-- A `MultiLineString` feature with two member arrays of one coordinate
pair each and one valid member. -/
def shortMlsFeature : Feature :=
  ⟨some (Geom.multiLineString [[[0, 0]], [[0, 0], [100, 100]], [[200, 200]]]), some "R", none⟩

/-- C1: `NearestAmenities.get` never reads the `area_id` query parameter, so
with the test configuration of `src/geo/tests.py`, a valid origin, `limit=5`
and `area_id` resolving to the Test Area, the result still contains
"Far Cafe", whose location is not inside the area's boundary — for any
database distance function.  This contradicts the claim and the repository's
own test `test_nearest_respects_area_filter` (`src/geo/tests.py` lines
94-102). -/
theorem nearest_area_filter_not_applied (dist : Pt → Pt → ℤ) :
    findArea [testArea] "1" = some testArea ∧
    ∃ res, nearestAmenities fixtureAms dist (FParse.value 5335) (FParse.value (-626))
        (IParse.value 5) (some "1") = Except.ok res ∧ farCafe ∈ res ∧
        pointInPolygon farCafe.location testArea.boundary = false := by
  refine ⟨by decide, nearestCore fixtureAms dist 5335 (-626) (min 5 100), rfl, ?_, by decide⟩
  have hlen : (fixtureAms.insertionSort (distLE dist ⟨-626, 5335⟩)).length
      ≤ ((min 5 100 : ℤ)).toNat := by
    rw [List.length_insertionSort]
    decide
  rw [nearestCore, List.take_of_length_le hlen]
  rw [List.mem_insertionSort]
  simp [fixtureAms]

/-- C2 (code bug): with a parseable origin and `km = -1`,
`AmenitiesWithinRadius.get` returns a result set instead of failing —
`src/geo/views.py` lines 83-95 never check `km <= 0`, although the
repository's own test `test_radius_validation_requires_positive_km`
(`src/geo/tests.py` lines 87-92) expects the call to be rejected.  The
missing/unparseable half of the claim does hold (the catch-all parse
branch), but the non-positive half is violated. -/
theorem radius_negative_km_not_rejected
    (ams : List Amenity) (dist : Pt → Pt → ℤ) (lat lng : ℤ)
    (areaIdP : Option String) :
    ∃ res, amenitiesWithinRadius ams dist (FParse.value lat) (FParse.value lng)
        (FParse.value (-1)) areaIdP = Except.ok res :=
  ⟨_, rfl⟩

/-- C3 (code bug): `AmenitiesWithinRadius.get` never reads the `area_id`
query parameter, so with the test configuration, origin
`(lat=53.35, lng=-6.26)`, `km=5` and `area_id` resolving to the Test Area,
any database distance that puts "Far Cafe" within 5 km (the real geodesic
distance is about 3.6 km) makes the result contain "Far Cafe", which is not
inside the area — no AND-composition with the area predicate happens.  This
contradicts the claim and the repository's own test
`test_radius_respects_area_filter` (`src/geo/tests.py` lines 104-112). -/
theorem radius_area_filter_not_applied (dist : Pt → Pt → ℤ)
    (hfar : dist ⟨-626, 5335⟩ farCafe.location ≤ 5 * 1000) :
    ∃ res, amenitiesWithinRadius fixtureAms dist (FParse.value 5335)
        (FParse.value (-626)) (FParse.value 5) (some "1") = Except.ok res ∧
      farCafe ∈ res ∧ pointInPolygon farCafe.location testArea.boundary = false := by
  refine ⟨_, rfl, ?_, by decide⟩
  refine List.mem_filter.mpr ⟨by simp [fixtureAms], ?_⟩
  simpa using hfar

/-- Witness for C3's theorem at the constant-zero distance function. -/
theorem radius_area_filter_not_applied_witness :
    ∃ res, amenitiesWithinRadius fixtureAms (fun _ _ => 0) (FParse.value 5335)
        (FParse.value (-626)) (FParse.value 5) (some "1") = Except.ok res ∧
      farCafe ∈ res ∧ pointInPolygon farCafe.location testArea.boundary = false :=
  radius_area_filter_not_applied (fun _ _ => 0) (by decide)

/-- C4: for every valid call to `NearestAmenities` (parseable origin,
positive parseable `limit` n), the result has at most n amenities when
`n ∈ [1,100]`, at most 100 when `n > 100`, and is sorted by non-decreasing
database distance to the origin. -/
theorem nearest_limit_clamp_and_sorted
    (store : List Amenity) (dist : Pt → Pt → ℤ) (lat lng : ℤ) (n : ℤ)
    (areaIdP : Option String) (res : List Amenity)
    (h : nearestAmenities store dist (FParse.value lat) (FParse.value lng)
        (IParse.value n) areaIdP = Except.ok res) :
    (1 ≤ n → n ≤ 100 → (res.length : ℤ) ≤ n) ∧
    (100 < n → res.length ≤ 100) ∧
    List.Sorted (distLE dist ⟨lng, lat⟩) res := by
  unfold nearestAmenities at h
  by_cases hn : n ≤ 0
  · simp [hn] at h
  · simp only [if_neg hn, Except.ok.injEq] at h
    subst h
    have hlen : (nearestCore store dist lat lng (min n 100)).length
        ≤ ((min n 100 : ℤ)).toNat := by
      simp [nearestCore]
    refine ⟨fun h1 h100 => ?_, fun h100 => ?_, ?_⟩
    · omega
    · omega
    · have hs : List.Sorted (distLE dist ⟨lng, lat⟩)
          (store.insertionSort (distLE dist ⟨lng, lat⟩)) := by
        haveI : IsTotal Amenity (distLE dist ⟨lng, lat⟩) := ⟨fun a b => le_total _ _⟩
        haveI : IsTrans Amenity (distLE dist ⟨lng, lat⟩) :=
          ⟨fun _ _ _ hab hbc => le_trans hab hbc⟩
        exact List.sorted_insertionSort _ _
      exact List.Pairwise.sublist (List.take_sublist _ _) hs

/-- Witness for C4 at the test configuration, `limit = 2` and the
constant-zero distance. -/
theorem nearest_limit_clamp_and_sorted_witness :
    (1 ≤ (2 : ℤ) → (2 : ℤ) ≤ 100 → (([brewLab, liftHub] : List Amenity).length : ℤ) ≤ 2) ∧
    ((100 : ℤ) < 2 → ([brewLab, liftHub] : List Amenity).length ≤ 100) ∧
    List.Sorted (distLE (fun _ _ => 0) ⟨-626, 5335⟩) [brewLab, liftHub] :=
  nearest_limit_clamp_and_sorted fixtureAms (fun _ _ => 0) 5335 (-626) 2 none
    [brewLab, liftHub] (by decide)

/-- C5: for every call to `NearestAmenities` with a parseable origin whose
`limit` parameter is present but unparseable, or parses to a non-positive
integer, the call fails with a `ValidationError` whose text contains
"limit". -/
theorem nearest_invalid_limit_rejected
    (store : List Amenity) (dist : Pt → Pt → ℤ) (lat lng : ℤ)
    (limitP : IParse) (areaIdP : Option String)
    (h : limitP = IParse.malformed ∨ ∃ n, limitP = IParse.value n ∧ n ≤ 0) :
    ∃ e, nearestAmenities store dist (FParse.value lat) (FParse.value lng)
        limitP areaIdP = Except.error e ∧ ∃ s t, e = s ++ "limit" ++ t := by
  rcases h with rfl | ⟨n, rfl, hn⟩
  · exact ⟨_, rfl, "Query param '", "' must be a positive integer.", rfl⟩
  · refine ⟨_, ?_, "Query param '", "' must be greater than zero.", rfl⟩
    simp [nearestAmenities, if_pos hn]

/-- Witness for C5 at an unparseable `limit`. -/
theorem nearest_invalid_limit_rejected_witness :
    ∃ e, nearestAmenities fixtureAms (fun _ _ => 0) (FParse.value 5335)
        (FParse.value (-626)) IParse.malformed none = Except.error e ∧
      ∃ s t, e = s ++ "limit" ++ t :=
  nearest_invalid_limit_rejected fixtureAms (fun _ _ => 0) 5335 (-626)
    IParse.malformed none (Or.inl rfl)

/-- C6: for every call to `AmenitiesWithinArea` or `RoutesIntersectingArea`
whose `area_id` is missing or resolves to no stored Area, the call fails
with a `ValidationError` and returns no result set. -/
theorem area_queries_require_valid_area
    (ams : List Amenity) (rts : List Route) (areas : List Area)
    (areaIdP : Option String)
    (h : areaIdP = none ∨ ∃ aid, areaIdP = some aid ∧ findArea areas aid = none) :
    (∃ e, amenitiesWithinArea ams areas areaIdP = Except.error e) ∧
    (∃ e, routesIntersectingArea rts areas areaIdP = Except.error e) := by
  rcases h with rfl | ⟨aid, rfl, hfind⟩
  · exact ⟨⟨_, rfl⟩, ⟨_, rfl⟩⟩
  · by_cases he : aid = ""
    · exact ⟨⟨"Query param 'area_id' is required.", by simp [amenitiesWithinArea, he]⟩,
        ⟨"Query param 'area_id' is required.", by simp [routesIntersectingArea, he]⟩⟩
    · exact ⟨⟨"Area not found.", by simp [amenitiesWithinArea, he, hfind]⟩,
        ⟨"Area not found.", by simp [routesIntersectingArea, he, hfind]⟩⟩

/-- Witness for C6 at a missing `area_id`. -/
theorem area_queries_require_valid_area_witness :
    (∃ e, amenitiesWithinArea fixtureAms [testArea] none = Except.error e) ∧
    (∃ e, routesIntersectingArea [] [testArea] none = Except.error e) :=
  area_queries_require_valid_area fixtureAms [] [testArea] none (Or.inl rfl)

/-- C7: for every stored Area that an `area_id` resolves to and every stored
amenity configuration, `AmenitiesWithinArea` returns exactly the amenities
whose location satisfies the point-in-polygon predicate against that area's
boundary. -/
theorem within_area_exact_characterization
    (ams : List Amenity) (areas : List Area) (aid : String) (area : Area)
    (res : List Amenity)
    (hfind : findArea areas aid = some area)
    (h : amenitiesWithinArea ams areas (some aid) = Except.ok res) :
    ∀ am, am ∈ res ↔ am ∈ ams ∧ pointInPolygon am.location area.boundary = true := by
  intro am
  by_cases he : aid = ""
  · simp [amenitiesWithinArea, he] at h
  · simp [amenitiesWithinArea, he, hfind] at h
    rw [← h]
    simp [List.mem_filter]

/-- Witness for C7 at the test configuration: "Brew Lab" is in the result
and inside the Test Area. -/
theorem within_area_exact_characterization_witness :
    brewLab ∈ [brewLab, liftHub] ↔
      brewLab ∈ fixtureAms ∧ pointInPolygon brewLab.location testArea.boundary = true :=
  within_area_exact_characterization fixtureAms [testArea] "1" testArea
    [brewLab, liftHub] (by decide) (by decide) brewLab

/-! Helper lemmas about the ingestion state and the names it stores. -/

theorem name_of_upsert_replace (r : Route) (name : String) (path : List Pt) :
    (if r.name == name then { r with path := path } else r).name = r.name := by
  by_cases h : r.name == name <;> simp [h]

theorem routeNames_upsert_pos (store : List Route) (name : String) (path : List Pt)
    (h : store.any (fun r => r.name == name) = true) :
    routeNames (upsertRoute store name path) = routeNames store := by
  simp only [upsertRoute, if_pos h, routeNames, List.map_map]
  exact List.map_congr_left fun r _ => name_of_upsert_replace r name path

theorem routeNames_upsert_neg (store : List Route) (name : String) (path : List Pt)
    (h : ¬ store.any (fun r => r.name == name) = true) :
    routeNames (upsertRoute store name path) = routeNames store ++ [name] := by
  simp only [upsertRoute, if_neg h, routeNames, List.map_append, List.map]

theorem mem_routeNames_of_any (store : List Route) (name : String)
    (h : store.any (fun r => r.name == name) = true) :
    name ∈ routeNames store := by
  rcases List.any_eq_true.mp h with ⟨r, hr, hname⟩
  exact List.mem_map.mpr ⟨r, hr, by simpa using hname⟩

theorem not_mem_routeNames_of_not_any (store : List Route) (name : String)
    (h : ¬ store.any (fun r => r.name == name) = true) :
    name ∉ routeNames store := by
  intro hmem
  rcases List.mem_map.mp hmem with ⟨r, hr, hname⟩
  exact h (List.any_eq_true.mpr ⟨r, hr, by simp [hname]⟩)

theorem keySet_upsert (store : List Route) (name : String) (path : List Pt) :
    keySet (upsertRoute store name path) = insert name (keySet store) := by
  by_cases h : store.any (fun r => r.name == name) = true
  · rw [keySet, routeNames_upsert_pos store name path h, ← keySet]
    exact (Finset.insert_eq_self.mpr
      (by simpa [keySet] using mem_routeNames_of_any store name h)).symm
  · rw [keySet, routeNames_upsert_neg store name path h, List.toFinset_append]
    ext x
    simp [keySet, or_comm]

theorem nodup_upsert (store : List Route) (name : String) (path : List Pt)
    (h : (routeNames store).Nodup) :
    (routeNames (upsertRoute store name path)).Nodup := by
  by_cases hc : store.any (fun r => r.name == name) = true
  · rw [routeNames_upsert_pos store name path hc]
    exact h
  · rw [routeNames_upsert_neg store name path hc]
    refine List.nodup_append.mpr ⟨h, List.nodup_singleton name, ?_⟩
    intro x hx hx1
    rw [List.mem_singleton] at hx1
    exact not_mem_routeNames_of_not_any store name hc (hx1 ▸ hx)

theorem snd_mem_enumFrom {α : Type} :
    ∀ {n : ℕ} {l : List α} {p : ℕ × α}, p ∈ l.enumFrom n → p.2 ∈ l
  | _, [], p, h => by simp [List.enumFrom] at h
  | n, a :: l, p, h => by
    rw [List.enumFrom] at h
    rcases List.mem_cons.mp h with h1 | h1
    · subst h1
      simp
    · exact List.mem_cons_of_mem a (snd_mem_enumFrom h1)

theorem enumFrom_fst {α : Type} :
    ∀ (n : ℕ) (l : List α), (l.enumFrom n).map Prod.fst = List.range' n l.length
  | _, [] => rfl
  | n, a :: l => by
    rw [List.enumFrom, List.map]
    simp [enumFrom_fst (n + 1) l, List.range'_succ]

theorem length_eq_card_keySet (store : List Route)
    (h : (routeNames store).Nodup) : store.length = (keySet store).card := by
  rw [keySet, List.toFinset_card_of_nodup h, routeNames, List.length_map]

theorem processSegments_ok (fn : String) (fi : Nat) (base : String) (multi : Bool) :
    ∀ (segs : List (ℕ × List (List ℤ))) (st st' : ImportState),
      processSegments fn fi base multi segs st = Except.ok st' →
      keySet st'.store = keySet st.store ∪ (segmentNames base multi segs).toFinset ∧
      ((routeNames st.store).Nodup → (routeNames st'.store).Nodup) ∧
      st'.skipped = st.skipped + (segs.filter (fun p => p.2.length < 2)).length
  | [], st, st', h => by
    simp only [processSegments, Except.ok.injEq] at h
    subst h
    exact ⟨by simp [segmentNames], fun hh => hh, by simp⟩
  | (i, seg) :: rest, st, st', h => by
    rw [processSegments] at h
    by_cases hlen : seg.length < 2
    · rw [if_pos hlen] at h
      obtain ⟨h1, h2, h3⟩ := processSegments_ok fn fi base multi rest _ _ h
      refine ⟨?_, h2, ?_⟩
      · rw [h1]
        congr 1
        simp [segmentNames, List.filter_cons, Nat.not_le.mpr hlen]
      · rw [h3]
        simp only [List.filter_cons]
        simp [hlen]
        omega
    · rw [if_neg hlen] at h
      cases hml : mkLineString seg with
      | none =>
        rw [hml] at h
        simp at h
      | some line =>
        rw [hml] at h
        obtain ⟨h1, h2, h3⟩ := processSegments_ok fn fi base multi rest _ _ h
        refine ⟨?_, fun hnd => h2 (nodup_upsert _ _ _ hnd), ?_⟩
        · rw [h1]
          show keySet (upsertRoute st.store (segmentName base multi i) line) ∪ _ = _
          rw [keySet_upsert]
          ext x
          simp [segmentNames, List.filter_cons, Nat.not_lt.mp hlen]
        · rw [h3]
          simp [List.filter_cons, hlen]

theorem processFeature_ok (fn stem : String) (idx : Nat) (f : Feature)
    (st st' : ImportState)
    (h : processFeature fn stem idx f st = Except.ok st') :
    keySet st'.store = keySet st.store ∪ (featureNames stem idx f).toFinset ∧
    ((routeNames st.store).Nodup → (routeNames st'.store).Nodup) := by
  cases hg : f.geometry with
  | none =>
    simp only [processFeature, hg, Except.ok.injEq] at h
    subst h
    simp [featureNames, hg]
  | some g =>
    cases g with
    | lineString cs =>
      by_cases hcs : cs.isEmpty
      · simp only [processFeature, hg, if_pos hcs, Except.ok.injEq] at h
        subst h
        simp [featureNames, hg, normalizedSegments, hcs]
      · simp only [processFeature, hg, if_neg hcs, List.isEmpty_cons, Bool.false_eq_true,
          if_false] at h
        obtain ⟨h1, h2, _⟩ := processSegments_ok fn idx (baseName stem idx f) _ _ _ _ h
        refine ⟨?_, h2⟩
        rw [h1]
        congr 2
        simp [featureNames, hg, normalizedSegments, hcs]
    | multiLineString cs =>
      by_cases hcs : cs.isEmpty
      · simp only [processFeature, hg, if_pos hcs, Except.ok.injEq] at h
        subst h
        simp [featureNames, hg, normalizedSegments, hcs]
      · by_cases hseg : (cs.filter (fun c => 2 ≤ c.length)).isEmpty
        · simp only [processFeature, hg, if_neg hcs, if_pos hseg, Except.ok.injEq] at h
          subst h
          simp [featureNames, hg, normalizedSegments, hcs, hseg]
        · simp only [processFeature, hg, if_neg hcs, if_neg hseg] at h
          obtain ⟨h1, h2, _⟩ := processSegments_ok fn idx (baseName stem idx f) _ _ _ _ h
          refine ⟨?_, h2⟩
          rw [h1]
          congr 2
          simp [featureNames, hg, normalizedSegments, hcs, hseg]
    | unsupported t hc =>
      simp only [processFeature, hg, Except.ok.injEq] at h
      subst h
      simp [featureNames, hg, normalizedSegments]

theorem processFeatures_ok (fn stem : String) :
    ∀ (idx : Nat) (fs : List Feature) (st st' : ImportState),
      processFeatures fn stem idx fs st = Except.ok st' →
      keySet st'.store = keySet st.store ∪ (runNames stem idx fs).toFinset ∧
      ((routeNames st.store).Nodup → (routeNames st'.store).Nodup)
  | _, [], st, st', h => by
    simp only [processFeatures, Except.ok.injEq] at h
    subst h
    simp [runNames]
  | idx, f :: rest, st, st', h => by
    rw [processFeatures] at h
    cases hf : processFeature fn stem idx f st with
    | error e =>
      rw [hf] at h
      simp at h
    | ok st2 =>
      rw [hf] at h
      obtain ⟨h1, h2⟩ := processFeature_ok fn stem idx f st st2 hf
      obtain ⟨h3, h4⟩ := processFeatures_ok fn stem (idx + 1) rest st2 st' h
      refine ⟨?_, fun hnd => h4 (h2 hnd)⟩
      rw [h3, h1, runNames]
      simp [List.toFinset_append, Finset.union_assoc]

theorem runImport_ok (fn stem : String) (fs : List Feature) (store : List Route)
    (st : ImportState) (h : runImport fn stem fs store = Except.ok st) :
    keySet st.store = keySet store ∪ (runNames stem 1 fs).toFinset ∧
    ((routeNames store).Nodup → (routeNames st.store).Nodup) := by
  rw [runImport] at h
  cases hi : importFile fn stem fs { store := store, imported := 0, skipped := 0 } with
  | error e =>
    rw [hi] at h
    simp at h
  | ok st1 =>
    rw [hi] at h
    dsimp only at h
    by_cases him : st1.imported = 0
    · rw [if_pos him] at h
      simp at h
    · rw [if_neg him] at h
      simp only [Except.ok.injEq] at h
      subst h
      by_cases hfs : fs.isEmpty
      · rw [importFile, if_pos hfs] at hi
        simp only [Except.ok.injEq] at hi
        subst hi
        rw [List.isEmpty_iff.mp hfs]
        simp [runNames]
      · rw [importFile, if_neg hfs] at hi
        exact processFeatures_ok fn stem 1 fs _ _ hi

/-- C8: ingestion is idempotent with respect to route count.  Routes are
upserted keyed by their final name, and the names a run upserts depend only
on the file, so running the import of the same file twice over a table with
unique names (the `unique=True` constraint of `src/geo/models.py` line 12)
leaves exactly as many Route records as running it once. -/
theorem route_import_idempotent
    (fn stem : String) (fs : List Feature) (store : List Route)
    (st1 st2 : ImportState)
    (hnd : (routeNames store).Nodup)
    (h1 : runImport fn stem fs store = Except.ok st1)
    (h2 : runImport fn stem fs st1.store = Except.ok st2) :
    st2.store.length = st1.store.length := by
  obtain ⟨k1, n1⟩ := runImport_ok fn stem fs store st1 h1
  obtain ⟨k2, n2⟩ := runImport_ok fn stem fs st1.store st2 h2
  have hnd1 := n1 hnd
  have hnd2 := n2 hnd1
  rw [length_eq_card_keySet _ hnd2, length_eq_card_keySet _ hnd1, k2, k1,
    Finset.union_assoc, Finset.union_self]

/-- Witness for C8: importing a one-feature file twice over an empty table
leaves one Route record, as after one run. -/
theorem route_import_idempotent_witness :
    (⟨[⟨"R", [⟨0, 0⟩, ⟨100, 100⟩]⟩], 1, 0⟩ : ImportState).store.length
      = (⟨[⟨"R", [⟨0, 0⟩, ⟨100, 100⟩]⟩], 1, 0⟩ : ImportState).store.length :=
  route_import_idempotent "routes_f.geojson" "routes_f"
    [⟨some (Geom.lineString [[0, 0], [100, 100]]), some "R", none⟩] []
    ⟨[⟨"R", [⟨0, 0⟩, ⟨100, 100⟩]⟩], 1, 0⟩ ⟨[⟨"R", [⟨0, 0⟩, ⟨100, 100⟩]⟩], 1, 0⟩
    (by decide) (by decide) (by decide)

theorem segmentNames_of_valid (base : String) (multi : Bool)
    (segs : List (List (List ℤ))) (hvalid : ∀ s ∈ segs, 2 ≤ s.length) :
    segmentNames base multi (segs.enumFrom 1)
      = (List.range' 1 segs.length).map (segmentName base multi) := by
  rw [segmentNames]
  have hfilter : (segs.enumFrom 1).filter (fun p => 2 ≤ p.2.length) = segs.enumFrom 1 :=
    List.filter_eq_self.mpr (fun p hp => by
      simpa using hvalid p.2 (snd_mem_enumFrom hp))
  rw [hfilter,
    show (fun p : ℕ × List (List ℤ) => segmentName base multi p.1)
      = (segmentName base multi) ∘ Prod.fst from rfl,
    ← List.map_map, enumFrom_fst]

/-- C9: for every ingested feature whose normalized segment sequence is
`segs` (each with at least 2 coordinate pairs), the names under which the
feature's routes are upserted are: the resolved base name unchanged when the
feature produced exactly one segment, and the base name suffixed with
`" (Segment n)"` for the 1-indexed positions `n = 1..segs.length` when it
produced more than one. -/
theorem route_final_names
    (fn stem : String) (idx : Nat) (f : Feature) (g : Geom)
    (segs : List (List (List ℤ))) (st st' : ImportState)
    (hg : f.geometry = some g)
    (hsegs : normalizedSegments g = some segs)
    (hvalid : ∀ s ∈ segs, 2 ≤ s.length)
    (h : processFeature fn stem idx f st = Except.ok st') :
    (segs.length = 1 →
      keySet st'.store = insert (baseName stem idx f) (keySet st.store)) ∧
    (1 < segs.length →
      keySet st'.store = keySet st.store ∪
        ((List.range' 1 segs.length).map
          (fun n => baseName stem idx f ++ " (Segment " ++ toString n ++ ")")).toFinset) := by
  obtain ⟨h1, _⟩ := processFeature_ok fn stem idx f st st' h
  have hfn : featureNames stem idx f
      = segmentNames (baseName stem idx f) (decide (1 < segs.length)) (segs.enumFrom 1) := by
    simp [featureNames, hg, hsegs]
  rw [hfn, segmentNames_of_valid _ _ _ hvalid] at h1
  constructor
  · intro hone
    rw [h1, hone]
    ext x
    simp [segmentName, or_comm]
  · intro hmult
    rw [h1]
    have hd : decide (1 < segs.length) = true := by simpa using hmult
    rw [hd]
    congr 2

/-- Witness for C9: a `MultiLineString` feature with 3 valid segments and
base name "B" stores exactly "B (Segment 1)", "B (Segment 2)",
"B (Segment 3)". -/
theorem route_final_names_witness :
    (([[[0, 0], [1, 1]], [[2, 2], [3, 3]], [[4, 4], [5, 5]]] : List (List (List ℤ))).length = 1 →
      keySet (⟨[⟨"B (Segment 1)", [⟨0, 0⟩, ⟨1, 1⟩]⟩, ⟨"B (Segment 2)", [⟨2, 2⟩, ⟨3, 3⟩]⟩,
          ⟨"B (Segment 3)", [⟨4, 4⟩, ⟨5, 5⟩]⟩], 3, 0⟩ : ImportState).store
        = insert (baseName "routes_f" 1
            ⟨some (Geom.multiLineString [[[0, 0], [1, 1]], [[2, 2], [3, 3]], [[4, 4], [5, 5]]]),
              some "B", none⟩)
            (keySet (⟨[], 0, 0⟩ : ImportState).store)) ∧
    (1 < ([[[0, 0], [1, 1]], [[2, 2], [3, 3]], [[4, 4], [5, 5]]] : List (List (List ℤ))).length →
      keySet (⟨[⟨"B (Segment 1)", [⟨0, 0⟩, ⟨1, 1⟩]⟩, ⟨"B (Segment 2)", [⟨2, 2⟩, ⟨3, 3⟩]⟩,
          ⟨"B (Segment 3)", [⟨4, 4⟩, ⟨5, 5⟩]⟩], 3, 0⟩ : ImportState).store
        = keySet (⟨[], 0, 0⟩ : ImportState).store ∪
          ((List.range' 1 ([[[0, 0], [1, 1]], [[2, 2], [3, 3]],
              [[4, 4], [5, 5]]] : List (List (List ℤ))).length).map
            (fun n => baseName "routes_f" 1
              ⟨some (Geom.multiLineString [[[0, 0], [1, 1]], [[2, 2], [3, 3]], [[4, 4], [5, 5]]]),
                some "B", none⟩ ++ " (Segment " ++ toString n ++ ")")).toFinset) :=
  route_final_names "routes_f.geojson" "routes_f" 1
    ⟨some (Geom.multiLineString [[[0, 0], [1, 1]], [[2, 2], [3, 3]], [[4, 4], [5, 5]]]),
      some "B", none⟩
    (Geom.multiLineString [[[0, 0], [1, 1]], [[2, 2], [3, 3]], [[4, 4], [5, 5]]])
    [[[0, 0], [1, 1]], [[2, 2], [3, 3]], [[4, 4], [5, 5]]]
    ⟨[], 0, 0⟩
    ⟨[⟨"B (Segment 1)", [⟨0, 0⟩, ⟨1, 1⟩]⟩, ⟨"B (Segment 2)", [⟨2, 2⟩, ⟨3, 3⟩]⟩,
      ⟨"B (Segment 3)", [⟨4, 4⟩, ⟨5, 5⟩]⟩], 3, 0⟩
    rfl (by decide) (by decide) (by decide)

/-- C10 counterexample: a `MultiLineString` feature with m = 2 member arrays
of fewer than 2 coordinate pairs ends the feature with a skip-count
contribution of 0, not 2 — the short members are dropped by the
normalization filter (`import_routes.py` line 137) before the per-segment
length check (line 155) can ever see them. -/
theorem multiline_short_members_counterexample :
    (processFeature "routes_f.geojson" "routes_f" 1 shortMlsFeature
        ⟨[], 0, 0⟩).map ImportState.skipped = Except.ok 0 ∧ (0 : ℕ) ≠ 2 :=
  ⟨by decide, by decide⟩

/-- C10 amended: member arrays of an ingested `MultiLineString` feature with
fewer than 2 coordinate pairs are dropped silently during normalization and
never reach the per-segment skip counter; the whole feature increments the
skip counter exactly once when every member is short (the empty-segments
check), and the short members contribute nothing otherwise. -/
theorem multiline_short_members_drop_silently
    (fn stem : String) (idx : Nat) (f : Feature) (cs : List (List (List ℤ)))
    (st st' : ImportState)
    (hg : f.geometry = some (Geom.multiLineString cs))
    (hcs : cs.isEmpty = false)
    (h : processFeature fn stem idx f st = Except.ok st') :
    if (cs.filter (fun c => 2 ≤ c.length)).isEmpty then st'.skipped = st.skipped + 1
    else st'.skipped = st.skipped := by
  by_cases hseg : (cs.filter (fun c => 2 ≤ c.length)).isEmpty
  · rw [if_pos hseg]
    simp only [processFeature, hg, hcs, Bool.false_eq_true, if_false, if_pos hseg,
      Except.ok.injEq] at h
    rw [← h]
  · rw [if_neg hseg]
    simp only [processFeature, hg, hcs, Bool.false_eq_true, if_false, if_neg hseg] at h
    obtain ⟨_, _, h3⟩ := processSegments_ok fn idx (baseName stem idx f) _ _ _ _ h
    rw [h3]
    have hnil : ((cs.filter (fun c => 2 ≤ c.length)).enumFrom 1).filter
        (fun p => p.2.length < 2) = [] := by
      rw [List.filter_eq_nil_iff]
      intro p hp
      have hmem := List.of_mem_filter (snd_mem_enumFrom hp)
      simp at hmem ⊢
      omega
    rw [hnil]
    simp

/-- Witness for C10's amended claim at the counterexample feature: its one
valid member leaves the skip counter untouched. -/
theorem multiline_short_members_drop_silently_witness :
    if (([[[0, 0]], [[0, 0], [100, 100]], [[200, 200]]] : List (List (List ℤ))).filter
        (fun c => 2 ≤ c.length)).isEmpty
    then (⟨[⟨"R", [⟨0, 0⟩, ⟨100, 100⟩]⟩], 1, 0⟩ : ImportState).skipped
        = (⟨[], 0, 0⟩ : ImportState).skipped + 1
    else (⟨[⟨"R", [⟨0, 0⟩, ⟨100, 100⟩]⟩], 1, 0⟩ : ImportState).skipped
        = (⟨[], 0, 0⟩ : ImportState).skipped :=
  multiline_short_members_drop_silently "routes_f.geojson" "routes_f" 1
    shortMlsFeature [[[0, 0]], [[0, 0], [100, 100]], [[200, 200]]]
    ⟨[], 0, 0⟩ ⟨[⟨"R", [⟨0, 0⟩, ⟨100, 100⟩]⟩], 1, 0⟩ rfl (by decide) (by decide)
